import Mathlib

/-!
# Verification of the Adreno idler frequency advisor

Shallow embedding of `adreno_idler` from `drivers/devfreq/adreno_idler.c`.
The C function inspects a devfreq load sample and either overrides the
frequency out-parameter or defers to the caller.  Times are milliseconds as
natural numbers; the sentinel `idle_lasttime = 0` means "unset", exactly as in
the C source (`if (!idle_lasttime) ...`).  The frequency table is the
`freq_table` array of the devfreq profile, indexed as the source indexes it:
`freq_table[max_state - 1]` is the lowest frequency and
`freq_table[max_state - 2]` the second lowest.
-/

/-- One devfreq load sample (`struct devfreq_dev_status`): busy and total
time of the sampling interval. -/
structure DevfreqDevStatus where
  busy_time : Nat
  total_time : Nat
  deriving Repr, DecidableEq

/-- The module parameters read by `adreno_idler`:
`idleworkload` (line 45), `idlewaitms` (line 51), `idlewait` (line 66),
`downdifferenctial` (line 70, spelling as in the source) and the master
switch `adreno_idler_active` (line 77). -/
structure IdlerConfig where
  idleworkload : Nat
  idlewaitms : Nat
  idlewait : Nat
  downdifferenctial : Nat
  adreno_idler_active : Bool
  deriving Repr, DecidableEq

/-- The mutable idle-tracking variables of the source: `idlecount`
(referenced at lines 108 and 126) and `idle_lasttime` (line 91, `0` = unset). -/
structure IdlerState where
  idlecount : Nat
  idle_lasttime : Nat
  deriving Repr, DecidableEq

/-- Observable outcome of one call to `adreno_idler`:
`freq` is the value of the `*freq` out-parameter after the call,
`wrote` records whether the function assigned `*freq`, and
`final` is true iff the function returned `1` (caller must stop adjusting). -/
structure IdlerResult where
  freq : Nat
  wrote : Bool
  final : Bool
  deriving Repr, DecidableEq

/-- `devfreq->profile->freq_table[devfreq->profile->max_state - 1]`:
the lowest frequency of the table. -/
def lowestFreq (t : List Nat) : Nat := t.getD (t.length - 1) 0

/-- `devfreq->profile->freq_table[devfreq->profile->max_state - 2]`:
the second-lowest frequency of the table. -/
def secondLowestFreq (t : List Nat) : Nat := t.getD (t.length - 2) 0

/-- Shallow embedding of `adreno_idler` (lines 93–139 of the source).
`now` is the value returned by `get_time_inms()` during the call,
`state_suspended` the display-off signal, `freq` the incoming value of the
`*freq` out-parameter, `st` the values of the static idle-tracking variables
on entry.  Returns the call's observable result together with the statics'
values after the call. -/
def adreno_idler (cfg : IdlerConfig) (state_suspended : Bool) (now : Nat)
    (stats : DevfreqDevStatus) (freq_table : List Nat) (freq : Nat)
    (st : IdlerState) : IdlerResult × IdlerState :=
  if cfg.adreno_idler_active = false then
    (⟨freq, false, false⟩, st)
  else if stats.busy_time < cfg.idleworkload then
    let st1 : IdlerState :=
      if st.idle_lasttime = 0 then { st with idle_lasttime := now } else st
    if freq = lowestFreq freq_table then
      (⟨freq, false, true⟩, st1)
    else if cfg.idlewait ≤ st1.idlecount ∧
        stats.busy_time * 100 < stats.total_time * cfg.downdifferenctial then
      (⟨freq, false, true⟩, st1)
    else if st1.idle_lasttime + cfg.idlewaitms ≤ now ∧
        stats.busy_time * 100 < stats.total_time * cfg.downdifferenctial then
      (⟨lowestFreq freq_table, true, true⟩, st1)
    else
      (⟨freq, false, false⟩, st1)
  else if state_suspended then
    (⟨lowestFreq freq_table, true, true⟩, st)
  else
    (⟨secondLowestFreq freq_table, true, false⟩, ⟨0, 0⟩)

/-- State of the static idle-tracking variables after `n` calls to
`adreno_idler` with the same config, suspend flag, call time, sample, table
and incoming frequency. -/
def stateAfter (cfg : IdlerConfig) (sus : Bool) (now : Nat)
    (stats : DevfreqDevStatus) (freq_table : List Nat) (freq : Nat) :
    Nat → IdlerState → IdlerState
  | 0, st => st
  | n + 1, st =>
      stateAfter cfg sus now stats freq_table freq n
        (adreno_idler cfg sus now stats freq_table freq st).2

/-- C6: if the master switch `adreno_idler_active` is off, the call returns
`{suggested_frequency: none, final: false}` (no write to `*freq`, return 0)
and the idle-tracking state is completely unchanged, for every input and
every starting state. -/
theorem C6_bypass (cfg : IdlerConfig) (sus : Bool) (now : Nat)
    (stats : DevfreqDevStatus) (tbl : List Nat) (freq : Nat) (st : IdlerState)
    (hact : cfg.adreno_idler_active = false) :
    adreno_idler cfg sus now stats tbl freq st = (⟨freq, false, false⟩, st) := by
  simp [adreno_idler, hact]

/-- Witness for C6 at a concrete input. -/
theorem C6_bypass_witness :
    adreno_idler ⟨5000, 500, 25, 20, false⟩ true 1000 ⟨9000, 10000⟩
      [300, 200, 100] 200 ⟨7, 42⟩ = (⟨200, false, false⟩, ⟨7, 42⟩) :=
  C6_bypass ⟨5000, 500, 25, 20, false⟩ true 1000 ⟨9000, 10000⟩
    [300, 200, 100] 200 ⟨7, 42⟩ rfl

/-- C3: with the advisor active, a suspended call on a non-idle sample
(`busy_time ≥ idleworkload`) writes the table's lowest frequency and returns
1 (final), whatever the values of `idlecount` and `idle_lasttime`. -/
theorem C3_suspend_priority (cfg : IdlerConfig) (now : Nat)
    (stats : DevfreqDevStatus) (tbl : List Nat) (freq : Nat) (st : IdlerState)
    (hact : cfg.adreno_idler_active = true)
    (hbusy : cfg.idleworkload ≤ stats.busy_time) :
    adreno_idler cfg true now stats tbl freq st =
      (⟨lowestFreq tbl, true, true⟩, st) := by
  simp [adreno_idler, hact, Nat.not_lt.mpr hbusy]

/-- Witness for C3 at a concrete input with nonzero streak and timestamp. -/
theorem C3_suspend_priority_witness :
    adreno_idler ⟨5000, 500, 25, 20, true⟩ true 1000 ⟨6000, 10000⟩
      [300, 200, 100] 300 ⟨9, 77⟩ = (⟨100, true, true⟩, ⟨9, 77⟩) :=
  C3_suspend_priority ⟨5000, 500, 25, 20, true⟩ 1000 ⟨6000, 10000⟩
    [300, 200, 100] 300 ⟨9, 77⟩ rfl (by decide)

/-- C4: with the advisor active, a non-idle, non-suspended sample and a table
of at least 3 entries: the call writes the second-lowest table entry, returns
0 (non-final), and afterwards `idlecount = 0` and `idle_lasttime` is unset. -/
theorem C4_nonidle_hint (cfg : IdlerConfig) (now : Nat)
    (stats : DevfreqDevStatus) (tbl : List Nat) (freq : Nat) (st : IdlerState)
    (hact : cfg.adreno_idler_active = true)
    (hbusy : cfg.idleworkload ≤ stats.busy_time)
    (htbl : 3 ≤ tbl.length) :
    adreno_idler cfg false now stats tbl freq st =
      (⟨secondLowestFreq tbl, true, false⟩, ⟨0, 0⟩) := by
  simp [adreno_idler, hact, Nat.not_lt.mpr hbusy]

/-- Witness for C4 at a concrete input. -/
theorem C4_nonidle_hint_witness :
    adreno_idler ⟨5000, 500, 25, 20, true⟩ false 1000 ⟨6000, 10000⟩
      [300, 200, 100] 300 ⟨9, 77⟩ = (⟨200, true, false⟩, ⟨0, 0⟩) :=
  C4_nonidle_hint ⟨5000, 500, 25, 20, true⟩ 1000 ⟨6000, 10000⟩
    [300, 200, 100] 300 ⟨9, 77⟩ rfl (by decide) (by decide)

/-- C5: with the advisor active, an idle sample
(`busy_time < idleworkload`) while the current frequency already equals the
table's lowest entry returns 1 (final) with the out-parameter still holding
the lowest frequency (the source returns without writing, so the caller
adopts `*freq = table.lowest`). -/
theorem C5_floor_idempotence (cfg : IdlerConfig) (sus : Bool) (now : Nat)
    (stats : DevfreqDevStatus) (tbl : List Nat) (freq : Nat) (st : IdlerState)
    (hact : cfg.adreno_idler_active = true)
    (hidle : stats.busy_time < cfg.idleworkload)
    (hfreq : freq = lowestFreq tbl) :
    (adreno_idler cfg sus now stats tbl freq st).1 =
      ⟨lowestFreq tbl, false, true⟩ := by
  simp [adreno_idler, hact, hidle, hfreq]

/-- Witness for C5 at a concrete input. -/
theorem C5_floor_idempotence_witness :
    (adreno_idler ⟨5000, 500, 25, 20, true⟩ false 1000 ⟨1000, 10000⟩
      [300, 200, 100] 100 ⟨0, 0⟩).1 = ⟨100, false, true⟩ :=
  C5_floor_idempotence ⟨5000, 500, 25, 20, true⟩ false 1000 ⟨1000, 10000⟩
    [300, 200, 100] 100 ⟨0, 0⟩ rfl (by decide) (by decide)

/-- C1: with `idleworkload = 5000`, `idlewaitms = 500`,
`downdifferenctial = 20`, the advisor active, sample
`busy_time = 1000, total_time = 10000`, the current frequency above the
table's lowest entry, and fresh state: a first call at a positive time `T0`
returns `{none, final = false}` and sets `idle_lasttime = T0`; a second call
at `T0 + 600` with the same sample and the resulting state writes the
table's lowest frequency and returns 1 (final). -/
theorem C1_time_based_confirmation (T0 : Nat) (tbl : List Nat) (freq : Nat)
    (hT0 : 0 < T0) (hfreq : lowestFreq tbl < freq) :
    (adreno_idler ⟨5000, 500, 25, 20, true⟩ false T0 ⟨1000, 10000⟩ tbl freq
        ⟨0, 0⟩).1 = ⟨freq, false, false⟩ ∧
    (adreno_idler ⟨5000, 500, 25, 20, true⟩ false T0 ⟨1000, 10000⟩ tbl freq
        ⟨0, 0⟩).2 = ⟨0, T0⟩ ∧
    (adreno_idler ⟨5000, 500, 25, 20, true⟩ false (T0 + 600) ⟨1000, 10000⟩
        tbl freq
        (adreno_idler ⟨5000, 500, 25, 20, true⟩ false T0 ⟨1000, 10000⟩ tbl
          freq ⟨0, 0⟩).2).1 = ⟨lowestFreq tbl, true, true⟩ := by
  have hne : ¬ freq = lowestFreq tbl := (Nat.ne_of_lt hfreq).symm
  have h1 : adreno_idler ⟨5000, 500, 25, 20, true⟩ false T0 ⟨1000, 10000⟩ tbl
      freq ⟨0, 0⟩ = (⟨freq, false, false⟩, ⟨0, T0⟩) := by
    simp [adreno_idler, hne]
  refine ⟨by rw [h1], by rw [h1], ?_⟩
  rw [h1]
  simp [adreno_idler, hne, Nat.pos_iff_ne_zero.mp hT0]

/-- Witness for C1 at `T0 = 1`, table `[300, 200, 100]`, frequency 200. -/
theorem C1_time_based_confirmation_witness :
    0 < 1 ∧ lowestFreq [300, 200, 100] < 200 ∧
    ((adreno_idler ⟨5000, 500, 25, 20, true⟩ false 1 ⟨1000, 10000⟩
        [300, 200, 100] 200 ⟨0, 0⟩).1 = ⟨200, false, false⟩ ∧
      (adreno_idler ⟨5000, 500, 25, 20, true⟩ false 1 ⟨1000, 10000⟩
        [300, 200, 100] 200 ⟨0, 0⟩).2 = ⟨0, 1⟩ ∧
      (adreno_idler ⟨5000, 500, 25, 20, true⟩ false 601 ⟨1000, 10000⟩
        [300, 200, 100] 200
        (adreno_idler ⟨5000, 500, 25, 20, true⟩ false 1 ⟨1000, 10000⟩
          [300, 200, 100] 200 ⟨0, 0⟩).2).1 = ⟨100, true, true⟩) :=
  ⟨by decide, by decide,
    C1_time_based_confirmation 1 [300, 200, 100] 200 (by decide) (by decide)⟩

/-- C10: whenever a call to `adreno_idler` writes the `*freq` out-parameter,
the value written is the table's lowest entry
(`freq_table[max_state - 1]`) or its second-lowest entry
(`freq_table[max_state - 2]`); no other frequency is ever suggested, for any
input and any state. -/
theorem C10_written_freq_floor_or_above (cfg : IdlerConfig) (sus : Bool)
    (now : Nat) (stats : DevfreqDevStatus) (tbl : List Nat) (freq : Nat)
    (st : IdlerState)
    (hw : (adreno_idler cfg sus now stats tbl freq st).1.wrote = true) :
    (adreno_idler cfg sus now stats tbl freq st).1.freq = lowestFreq tbl ∨
    (adreno_idler cfg sus now stats tbl freq st).1.freq =
      secondLowestFreq tbl := by
  revert hw
  simp only [adreno_idler]
  repeat' split
  all_goals simp

/-- Witness for C10 at a concrete suspended call that writes `*freq`. -/
theorem C10_written_freq_floor_or_above_witness :
    (adreno_idler ⟨5000, 500, 25, 20, true⟩ true 1000 ⟨6000, 10000⟩
      [300, 200, 100] 300 ⟨0, 0⟩).1.wrote = true ∧
    ((adreno_idler ⟨5000, 500, 25, 20, true⟩ true 1000 ⟨6000, 10000⟩
        [300, 200, 100] 300 ⟨0, 0⟩).1.freq = lowestFreq [300, 200, 100] ∨
      (adreno_idler ⟨5000, 500, 25, 20, true⟩ true 1000 ⟨6000, 10000⟩
        [300, 200, 100] 300 ⟨0, 0⟩).1.freq =
          secondLowestFreq [300, 200, 100]) :=
  ⟨by decide,
    C10_written_freq_floor_or_above ⟨5000, 500, 25, 20, true⟩ true 1000
      ⟨6000, 10000⟩ [300, 200, 100] 300 ⟨0, 0⟩ (by decide)⟩

set_option maxRecDepth 8192 in
/-- C2 evaluation: the source never increments `idlecount`, so with a
fresh state and 24 preceding idle calls (sample `busy = 1000`,
`total = 10000`, ratio test satisfied, all at the same time so the
time-based path cannot fire), `idlecount` is still 0 and the 25th idle call
returns `{none, final = false}` instead of the claimed `final = true`. -/
theorem C2_event_count_never_fires :
    (stateAfter ⟨5000, 500, 25, 20, true⟩ false 1000 ⟨1000, 10000⟩
      [300, 200, 100] 200 24 ⟨0, 0⟩).idlecount = 0 ∧
    (adreno_idler ⟨5000, 500, 25, 20, true⟩ false 1000 ⟨1000, 10000⟩
      [300, 200, 100] 200
      (stateAfter ⟨5000, 500, 25, 20, true⟩ false 1000 ⟨1000, 10000⟩
        [300, 200, 100] 200 24 ⟨0, 0⟩)).1 = ⟨200, false, false⟩ := by
  decide

/-- C7 counterexample: with a one-entry table, an active suspended call on a
non-idle sample does not decline — it writes the sole entry and returns 1
(final), not `{none, final = false}` as claimed. -/
theorem C7_counterexample_one_entry_acts :
    (adreno_idler ⟨5000, 500, 25, 20, true⟩ true 1000 ⟨6000, 10000⟩ [100]
      300 ⟨0, 0⟩).1 = ⟨100, true, true⟩ := by
  decide

/-- C7 amended: the source performs no table-size validation; a call with a
table of fewer than 2 entries proceeds through the normal algorithm.  In
particular an active, suspended, non-idle call with a one-entry table
writes that sole entry and returns 1 (final). -/
theorem C7_amended_one_entry_suspended (f : Nat) (now : Nat)
    (cfg : IdlerConfig) (stats : DevfreqDevStatus) (freq : Nat)
    (st : IdlerState)
    (hact : cfg.adreno_idler_active = true)
    (hbusy : cfg.idleworkload ≤ stats.busy_time) :
    adreno_idler cfg true now stats [f] freq st = (⟨f, true, true⟩, st) := by
  simp [adreno_idler, hact, Nat.not_lt.mpr hbusy, lowestFreq]

/-- Witness for the amended C7 at a concrete input. -/
theorem C7_amended_one_entry_suspended_witness :
    adreno_idler ⟨5000, 500, 25, 20, true⟩ true 1000 ⟨6000, 10000⟩ [100]
      300 ⟨2, 9⟩ = (⟨100, true, true⟩, ⟨2, 9⟩) :=
  C7_amended_one_entry_suspended 100 1000 ⟨5000, 500, 25, 20, true⟩
    ⟨6000, 10000⟩ 300 ⟨2, 9⟩ rfl (by decide)

/-- C8 counterexample: a zero-total sample (`busy = 0, total = 0`) is
classified idle, not non-idle: the call leaves `*freq` unwritten, returns 0
and sets `idle_lasttime`, whereas the genuine non-idle case at the same
state writes the second-lowest entry and clears the state. -/
theorem C8_counterexample_zero_total_idle :
    adreno_idler ⟨5000, 500, 25, 20, true⟩ false 1000 ⟨0, 0⟩
      [300, 200, 100] 250 ⟨0, 0⟩ = (⟨250, false, false⟩, ⟨0, 1000⟩) ∧
    adreno_idler ⟨5000, 500, 25, 20, true⟩ false 1000 ⟨6000, 10000⟩
      [300, 200, 100] 250 ⟨0, 0⟩ = (⟨200, true, false⟩, ⟨0, 0⟩) := by
  decide

/-- C8 amended: a zero-total sample with `busy_time` below the threshold is
classified idle; its ratio test `busy * 100 < 0 * differential` is false, so
neither confirmation path fires and no fault occurs: when the current
frequency is above the floor the call returns `{none, final = false}`. -/
theorem C8_amended_zero_total_unconfirmed (cfg : IdlerConfig) (sus : Bool)
    (now : Nat) (busy : Nat) (tbl : List Nat) (freq : Nat) (st : IdlerState)
    (hact : cfg.adreno_idler_active = true)
    (hbusy : busy < cfg.idleworkload)
    (hfreq : freq ≠ lowestFreq tbl) :
    (adreno_idler cfg sus now ⟨busy, 0⟩ tbl freq st).1 =
      ⟨freq, false, false⟩ := by
  simp [adreno_idler, hact, hbusy, hfreq]

/-- Witness for the amended C8 at a concrete input. -/
theorem C8_amended_zero_total_unconfirmed_witness :
    (adreno_idler ⟨5000, 500, 25, 20, true⟩ false 1000 ⟨0, 0⟩
      [300, 200, 100] 250 ⟨0, 0⟩).1 = ⟨250, false, false⟩ :=
  C8_amended_zero_total_unconfirmed ⟨5000, 500, 25, 20, true⟩ false 1000 0
    [300, 200, 100] 250 ⟨0, 0⟩ rfl (by decide) (by decide)

/-- C9 counterexample: a suspended call on a non-idle sample
(`busy = 6000 ≥ 5000`) leaves the idle-tracking variables untouched, so
after the call `idlecount = 3 ≠ 0` and `idle_lasttime = 50` is still set —
contradicting the claimed "non-idle sample ⇒ idle_streak = 0 and
idle_since unset". -/
theorem C9_counterexample_suspended_stale_state :
    (adreno_idler ⟨5000, 500, 25, 20, true⟩ true 1000 ⟨6000, 10000⟩
      [300, 200, 100] 200 ⟨3, 50⟩).2 = ⟨3, 50⟩ := by
  decide

/-- C9 amended: with the advisor active and a positive call time, after a
non-idle, non-suspended call `idlecount = 0` and `idle_lasttime` is unset;
after an idle call `idle_lasttime` is set, but `idlecount` is merely
unchanged (the source never increments it, so it does not count the
streak).  A non-idle suspended call leaves the state untouched, and in the
source the state is a pair of process-wide statics shared by all devices. -/
theorem C9_state_consistency (cfg : IdlerConfig) (sus : Bool) (now : Nat)
    (stats : DevfreqDevStatus) (tbl : List Nat) (freq : Nat) (st : IdlerState)
    (hact : cfg.adreno_idler_active = true)
    (hnow : 0 < now) :
    (cfg.idleworkload ≤ stats.busy_time → sus = false →
      (adreno_idler cfg sus now stats tbl freq st).2 = ⟨0, 0⟩) ∧
    (stats.busy_time < cfg.idleworkload →
      (adreno_idler cfg sus now stats tbl freq st).2.idle_lasttime ≠ 0 ∧
      (adreno_idler cfg sus now stats tbl freq st).2.idlecount =
        st.idlecount) := by
  constructor
  · intro hbusy hs
    subst hs
    simp [adreno_idler, hact, Nat.not_lt.mpr hbusy]
  · intro hidle
    have hres : (adreno_idler cfg sus now stats tbl freq st).2 =
        if st.idle_lasttime = 0 then ⟨st.idlecount, now⟩ else st := by
      simp only [adreno_idler, hact]
      simp only [Bool.true_eq_false, if_false, hidle, if_true]
      repeat' split
      all_goals rfl
    rw [hres]
    split
    · exact ⟨Nat.pos_iff_ne_zero.mp hnow, rfl⟩
    · next h => exact ⟨h, rfl⟩

/-- Witness for the amended C9 at a concrete input. -/
theorem C9_state_consistency_witness :
    ((⟨5000, 500, 25, 20, true⟩ : IdlerConfig).idleworkload ≤
        (⟨6000, 10000⟩ : DevfreqDevStatus).busy_time → false = false →
      (adreno_idler ⟨5000, 500, 25, 20, true⟩ false 1000 ⟨6000, 10000⟩
        [300, 200, 100] 200 ⟨3, 50⟩).2 = ⟨0, 0⟩) ∧
    ((⟨6000, 10000⟩ : DevfreqDevStatus).busy_time <
        (⟨5000, 500, 25, 20, true⟩ : IdlerConfig).idleworkload →
      (adreno_idler ⟨5000, 500, 25, 20, true⟩ false 1000 ⟨6000, 10000⟩
        [300, 200, 100] 200 ⟨3, 50⟩).2.idle_lasttime ≠ 0 ∧
      (adreno_idler ⟨5000, 500, 25, 20, true⟩ false 1000 ⟨6000, 10000⟩
        [300, 200, 100] 200 ⟨3, 50⟩).2.idlecount =
          (⟨3, 50⟩ : IdlerState).idlecount) :=
  C9_state_consistency ⟨5000, 500, 25, 20, true⟩ false 1000 ⟨6000, 10000⟩
    [300, 200, 100] 200 ⟨3, 50⟩ rfl (by decide)
